import Mathlib

/-!
# Model server gateway: `tensorflow_serving/model_servers/main.cc`

A shallow embedding of the request gateway of the model server:

* `ToGRPCStatus`, the status translator;
* `PredictionServiceImpl`, the service object with its pacing counters, and its
  `Predict` method (arrival pacing, latency recording, call budget);
* the part of `main` that assembles the `ServerCore::Options` from the flags.

Conventions of the embedding.

* A `std::string` holding a message is a list of `char`s (`CppString`); file names are
  Lean strings, only ever compared with the empty string.
* C++ `int`, `int32`, `int64_t` values are integers (`Int`).  The budget and the
  counter of served calls are 32-bit: the budget read from its file is clamped to the
  range of `int`, and the increment of the counter wraps from `INT_MAX` to `INT_MIN`
  (`wrapInt32`).  The cursor stays below the size of the schedule and the clock readings
  are differences of nearby instants, so their arithmetic is exact.
* `double` durations are values of an arbitrary type `D` with an addition and a zero:
  nothing is assumed about the addition (in particular not associativity), so every
  statement holds for IEEE doubles as well as for exact numbers.
* What a call observes of its environment (the outcome of the inference engine, the two
  readings of the steady clock) is an input of the call; what it does to its
  environment (the argument of `sleep_for`, the lines appended to the three log files)
  is recorded in a `World`.  Whether a log file can be opened is an input of the call
  as well: a line written after a failed open does not reach the file.
* Reading a `std::vector` outside its bounds has no defined behaviour: the call then
  yields `PredictResult.undefined`.
-/

namespace ModelServer

/-- A `std::string` used as a message: the sequence of its `char`s. -/
abbrev CppString := List Char

namespace tensorflow

/-- The engine-level `tensorflow::Status`: an error code and a message. -/
structure Status where
  code : Int
  error_message : CppString
deriving DecidableEq

/-- The value `tensorflow::Status::OK()`. -/
def Status.OK : Status := ⟨0, []⟩

/-- The method `tensorflow::Status::ok()`: the code is `OK`, numerically zero. -/
def Status.ok (s : Status) : Bool := s.code == 0

end tensorflow

namespace grpc

/-- The wire-level `grpc::Status`: a status code and a message. -/
structure Status where
  code : Int
  error_message : CppString
deriving DecidableEq

/-- The method `grpc::Status::ok()`: the code is `StatusCode::OK`, numerically zero. -/
def Status.ok (s : Status) : Bool := s.code == 0

end grpc

/-- The local constant `kErrorMessageLimit` of `ToGRPCStatus`. -/
def kErrorMessageLimit : Nat := 1024

/-- The marker that `ToGRPCStatus` appends to a message it has cut. -/
def kTruncatedMarker : CppString := "...TRUNCATED".toList

/-- The function `ToGRPCStatus` (lines 185-200): the code is cast to the wire-level
enumeration, the message is cut after `kErrorMessageLimit` characters when it is
longer than that. -/
def ToGRPCStatus (status : tensorflow.Status) : grpc.Status :=
  let error_message : CppString :=
    if status.error_message.length > kErrorMessageLimit then
      status.error_message.take kErrorMessageLimit ++ kTruncatedMarker
    else
      status.error_message
  { code := status.code, error_message := error_message }

/-! ## The prediction service and its pacing state -/

/-- What the service does to its environment: the durations it has passed to
`std::this_thread::sleep_for`, and the lines it has appended to the files `main.txt`
(latencies), `main_start.txt` and `main_end.txt` (clock readings), oldest first.
Console output is not part of the model. -/
structure World (D : Type) where
  slept : List D
  main_txt : List Int
  main_start_txt : List Int
  main_end_txt : List Int
deriving DecidableEq

/-- The data members of `PredictionServiceImpl` that `Predict` and `GetModelMetadata`
read or write (lines 221-225 and 365); `core_` and `predictor_` stand for the inference
engine, whose answers are inputs of the calls. -/
structure PredictionServiceImpl (D : Type) where
  qy_request_count : Int
  qy_income_request_count : Int
  qy_total_request_count : Int
  total_waiting_time : D
  interarrival_time_generated : List D
  use_saved_model_ : Bool
deriving DecidableEq

/-- The largest value of a C++ `int`. -/
def INT_MAX : Int := 2147483647

/-- The smallest value of a C++ `int`. -/
def INT_MIN : Int := -2147483648

/-- The value an `int` holds after an arithmetic result `x` is stored in it: `x` itself
inside the range of `int`, and `x` reduced modulo `2^32` into that range outside it, so
that `INT_MAX + 1` is stored as `INT_MIN`. -/
def wrapInt32 (x : Int) : Int :=
  (x + 2147483648) % 4294967296 - 2147483648

/-- The value `myfile >> n` stores in an `int n` when the file holds the integer `x`:
`x` itself inside the range of `int`, the nearest bound of the range outside it. -/
def clampInt32 (x : Int) : Int :=
  if x > INT_MAX then INT_MAX else if x < INT_MIN then INT_MIN else x

/-- The lines of a log file after `outfile.open(..., app)`, the test of
`outfile.fail()`, `outfile << line` and `outfile.close()` (lines 260-276): the line
is appended, unless the open has failed, in which case the file is as before. -/
def appendLine (fail : Bool) (file : List Int) (line : Int) : List Int :=
  if fail then file else file ++ [line]

/-- The constructor of `PredictionServiceImpl` (lines 205-220) together with the member
initialisers: `number_of_request` is the integer written in `number_of_request.txt`,
which is read into an `int`, `interarrival` the numbers read from
`interarrival_time_generated.txt`. -/
def PredictionServiceImpl.new {D : Type} [Zero D] (number_of_request : Int)
    (interarrival : List D) (use_saved_model : Bool) : PredictionServiceImpl D :=
  { qy_request_count := 0
    qy_income_request_count := 0
    qy_total_request_count := clampInt32 number_of_request
    total_waiting_time := 0
    interarrival_time_generated := interarrival
    use_saved_model_ := use_saved_model }

/-- The world before the service has done anything. -/
def World.initial {D : Type} : World D :=
  { slept := [], main_txt := [], main_start_txt := [], main_end_txt := [] }

/-- The expression `v[i]` on a `std::vector` with an `int` index: defined only inside
the bounds of the vector. -/
def vectorAt {D : Type} (v : List D) (i : Int) : Option D :=
  if 0 ≤ i then v[i.toNat]? else none

/-- The pre-call step of `Predict` (lines 229-236): add the inter-arrival duration under
the cursor to `total_waiting_time`, advance the cursor, wrapping at the size of the
schedule, and hand `t_time`, the new `total_waiting_time`, to `sleep_for`.  The result
is the updated object and the duration passed to `sleep_for`; it is `none` when the
cursor is outside the schedule. -/
def Predict.pace {D : Type} [Add D] (svc : PredictionServiceImpl D) :
    Option (PredictionServiceImpl D × D) :=
  match vectorAt svc.interarrival_time_generated svc.qy_income_request_count with
  | none => none
  | some d =>
    let total_waiting_time := svc.total_waiting_time + d
    let t_time := total_waiting_time
    let qy_income_request_count := svc.qy_income_request_count + 1
    let qy_income_request_count :=
      if qy_income_request_count ≥ (svc.interarrival_time_generated.length : Int) then
        qy_income_request_count - (svc.interarrival_time_generated.length : Int)
      else
        qy_income_request_count
    some ({ svc with total_waiting_time := total_waiting_time
                     qy_income_request_count := qy_income_request_count }, t_time)

/-- What one `Predict` call observes of its environment: the status the inference
engine returns for the request, the two readings of the steady clock, in microseconds,
taken right before and right after the engine call, and, for each of the three log
files, the value of `outfile.fail()` after the file has been opened for appending. -/
structure PredictCall where
  engine : tensorflow.Status
  start_time : Int
  end_time : Int
  main_txt_fail : Bool
  main_start_txt_fail : Bool
  main_end_txt_fail : Bool
deriving DecidableEq

/-- How a `Predict` call ends: it returns a status to the caller, or it ends the
process through `exit`, or its behaviour is undefined.  The first two carry the object
and the world as the call leaves them. -/
inductive PredictResult (D : Type) where
  | returned (svc : PredictionServiceImpl D) (world : World D) (status : grpc.Status)
  | exited (code : Int) (svc : PredictionServiceImpl D) (world : World D)
  | undefined
deriving DecidableEq

/-- The method `PredictionServiceImpl::Predict` (lines 226-287). -/
def Predict {D : Type} [Add D] (svc : PredictionServiceImpl D) (world : World D)
    (call : PredictCall) : PredictResult D :=
  match Predict.pace svc with
  | none => .undefined
  | some (svc, t_time) =>
    let world := { world with slept := world.slept ++ [t_time] }
    let start_time := call.start_time
    let status := ToGRPCStatus call.engine
    let end_time := call.end_time
    if !status.ok then
      .returned svc world status
    else
      let world :=
        if svc.qy_request_count > 0 then
          { world with
              main_txt :=
                appendLine call.main_txt_fail world.main_txt (end_time - start_time)
              main_start_txt :=
                appendLine call.main_start_txt_fail world.main_start_txt start_time
              main_end_txt :=
                appendLine call.main_end_txt_fail world.main_end_txt end_time }
        else
          world
      let svc := { svc with qy_request_count := wrapInt32 (svc.qy_request_count + 1) }
      if svc.qy_request_count > svc.qy_total_request_count then
        .exited 0 svc world
      else
        .returned svc world status

/-- The serving process as far as `Predict` is concerned: serving with the given object
and world, ended by `exit`, or in an undefined state. -/
inductive Process (D : Type) where
  | running (svc : PredictionServiceImpl D) (world : World D)
  | exited (code : Int) (svc : PredictionServiceImpl D) (world : World D)
  | undefined
deriving DecidableEq

/-- The process a `Predict` call leaves behind. -/
def PredictResult.process {D : Type} : PredictResult D → Process D
  | .returned svc world _ => .running svc world
  | .exited code svc world => .exited code svc world
  | .undefined => .undefined

/-- One more `Predict` call on a process; a process that is no longer running serves
nothing. -/
def Process.serve {D : Type} [Add D] (p : Process D) (call : PredictCall) : Process D :=
  match p with
  | .running svc world => (Predict svc world call).process
  | p => p

/-- A sequential run of `Predict` calls. -/
def Process.serveAll {D : Type} [Add D] (p : Process D) (calls : List PredictCall) :
    Process D :=
  calls.foldl Process.serve p

/-- The process right after the construction of the service, with budget
`number_of_request` and schedule `interarrival`. -/
def Process.start {D : Type} [Zero D] (number_of_request : Int) (interarrival : List D) :
    Process D :=
  .running (PredictionServiceImpl.new number_of_request interarrival true) World.initial

/-- The number of calls of a run that the engine serves successfully. -/
def servedCalls (calls : List PredictCall) : Nat :=
  (calls.filter (fun call => call.engine.ok)).length

/-- The world a `Predict` call leaves behind, when its behaviour is defined. -/
def PredictResult.world {D : Type} : PredictResult D → Option (World D)
  | .returned _ world _ => some world
  | .exited _ _ world => some world
  | .undefined => none

/-- The service object a `Predict` call leaves behind, when its behaviour is defined. -/
def PredictResult.svc {D : Type} : PredictResult D → Option (PredictionServiceImpl D)
  | .returned svc _ _ => some svc
  | .exited _ svc _ => some svc
  | .undefined => none

/-- The cursor of the object is an index of its schedule. -/
def PredictionServiceImpl.cursorInSchedule {D : Type} (svc : PredictionServiceImpl D) :
    Prop :=
  0 ≤ svc.qy_income_request_count ∧
  svc.qy_income_request_count < (svc.interarrival_time_generated.length : Int)

/-- The lines a successful `Predict` call appends to `main.txt`, when it is made with
the counter at `qy_request_count`: its latency, unless the counter is not positive or
the file cannot be opened. -/
def latencyLines (qy_request_count : Int) (call : PredictCall) : List Int :=
  if qy_request_count > 0 ∧ call.main_txt_fail = false then
    [call.end_time - call.start_time]
  else []

/-- Three calls that the engine serves successfully, with their clock readings; the
log files can be opened. -/
def threeServedCalls : List PredictCall :=
  [⟨tensorflow.Status.OK, 100, 130, false, false, false⟩,
   ⟨tensorflow.Status.OK, 200, 260, false, false, false⟩,
   ⟨tensorflow.Status.OK, 300, 390, false, false, false⟩]

/-- A call that the engine serves successfully between clock readings 100 and 130; the
log files can be opened. -/
def servedCall : PredictCall :=
  ⟨tensorflow.Status.OK, 100, 130, false, false, false⟩

/-- A run of `2^31` calls that are all served successfully. -/
def manyServedCalls : List PredictCall :=
  List.replicate 2147483648 servedCall

/-- The sleep the specification describes: until the time elapsed since process start
reaches `cumulativeWait`, that is the difference when the elapsed time is still below
it, and nothing when that time has already passed. -/
def sleepUntilElapsed (cumulativeWait elapsed : ℚ) : ℚ :=
  if elapsed < cumulativeWait then cumulativeWait - elapsed else 0

/-! ## Assembling the serving policy in `main` -/

/-- Modelled from the spec: the message type `BatchingParameters`, whose declaration
(`session_bundle_config.proto`) is not among the sources.  It carries the batching
knobs of the serving policy: max batch size, batch timeout in microseconds, max
enqueued batches, number of batch threads and the name of the thread pool; each is a
wrapper message, absent (`none`) until it is set. -/
structure BatchingParameters where
  max_batch_size : Option Int := none
  batch_timeout_micros : Option Int := none
  max_enqueued_batches : Option Int := none
  num_batch_threads : Option Int := none
  thread_pool_name : Option String := none
deriving DecidableEq

/-- Modelled from the spec: the part of the message type `ConfigProto` that `main`
sets, the inter-op and intra-op thread counts; its declaration is not among the
sources. -/
structure ConfigProto where
  intra_op_parallelism_threads : Int := 0
  inter_op_parallelism_threads : Int := 0
deriving DecidableEq

/-- Modelled from the spec: the message type `SessionBundleConfig`, whose declaration
is not among the sources: the session configuration and the batching parameters, the
latter absent unless batching is configured. -/
structure SessionBundleConfig where
  session_config : ConfigProto := {}
  batching_parameters : Option BatchingParameters := none
deriving DecidableEq

/-- Modelled from the spec: one entry of a `ModelServerConfig`, the identity of a model
(name, base path, platform); its declaration is not among the sources. -/
structure ModelConfig where
  name : String
  base_path : String
  model_platform : String
deriving DecidableEq

/-- Modelled from the spec: the message type `ModelServerConfig`, as the list of the
models it configures; its declaration is not among the sources. -/
structure ModelServerConfig where
  model_config_list : List ModelConfig
deriving DecidableEq

/-- The variables of `main` that the flags set, with their defaults (lines 401-419).
`per_process_gpu_memory_fraction`, a `float` that `main` never reads, is left out. -/
structure Flags where
  port : Int := 8500
  batch_size : Int := 50
  inter_op : Int := 10
  intra_op : Int := 10
  batch_queue : Int := 10
  batch_timeout : Int := 1000000
  batch_threads : Int := 1
  enable_batching : Bool := false
  batching_parameters_file : String := ""
  model_name : String := "default"
  file_system_poll_wait_seconds : Int := 1
  model_base_path : String := ""
  tensorflow_session_parallelism : Int := 0
  platform_config_file : String := ""
  model_config_file : String := ""
deriving DecidableEq

/-- The constant `use_saved_model` of `main` (line 414). -/
def use_saved_model : Bool := true

/-- What `main` uses without defining it, for a platform configuration map of type
`PCM`: reading a file (`Env::NewReadOnlyMemoryRegionFromFile`, which fails with a
status), parsing the text of a message of each of the three types
(`TextFormat::ParseFromString`, which may fail), deriving the platform configuration
from a session bundle configuration (`CreateTensorFlowPlatformConfigMap`), and the name
of the TensorFlow platform (`kTensorFlowModelPlatform`). -/
structure Env (PCM : Type) where
  NewReadOnlyMemoryRegionFromFile : String → Except tensorflow.Status String
  parseModelServerConfig : String → Option ModelServerConfig
  parseBatchingParameters : String → Option BatchingParameters
  parsePlatformConfigMap : String → Option PCM
  CreateTensorFlowPlatformConfigMap : SessionBundleConfig → Bool → PCM
  kTensorFlowModelPlatform : String

/-- The status `tensorflow::errors::InvalidArgument(message)`; the code
`INVALID_ARGUMENT` is numerically 3. -/
def tensorflow.errors.InvalidArgument (message : String) : tensorflow.Status :=
  { code := 3, error_message := message.toList }

/-- The function `ParseProtoTextFile` (lines 124-143), for the parser `parse` of the
type of the message. -/
def ParseProtoTextFile {PCM α : Type} (env : Env PCM) (parse : String → Option α)
    (file : String) : Except tensorflow.Status α :=
  match env.NewReadOnlyMemoryRegionFromFile file with
  | .error status => .error status
  | .ok file_data_str =>
    match parse file_data_str with
    | some message => .ok message
    | none =>
      .error (tensorflow.errors.InvalidArgument ("Invalid protobuf file: \x27" ++ file ++ "\x27"))

/-- How `main` can fail before it has assembled the options of the server core: by
returning `-1` after printing the usage, or by a fatal abort, either of a `TF_CHECK_OK`
on a status that is not OK or of a `LOG(FATAL)` with a message. -/
inductive StartupFailure where
  | returned (code : Int)
  | check_failed (status : tensorflow.Status)
  | fatal (message : String)
deriving DecidableEq

/-- A fatal abort, as opposed to a return from `main`. -/
def StartupFailure.isFatal : StartupFailure → Bool
  | .returned _ => false
  | .check_failed _ => true
  | .fatal _ => true

/-- The function `BuildSingleModelConfig` (lines 154-168). -/
def BuildSingleModelConfig {PCM : Type} (env : Env PCM) (model_name : String)
    (model_base_path : String) : ModelServerConfig :=
  { model_config_list :=
      [{ name := model_name, base_path := model_base_path,
         model_platform := env.kTensorFlowModelPlatform }] }

/-- The function template `ReadProtoFromFile` (lines 170-176): a file that cannot be
read or parsed is fatal. -/
def ReadProtoFromFile {PCM α : Type} (env : Env PCM) (parse : String → Option α)
    (file : String) : Except StartupFailure α :=
  match ParseProtoTextFile env parse file with
  | .ok proto => .ok proto
  | .error status => .error (.check_failed status)

/-- The function `ParsePlatformConfigMap` (lines 389-395). -/
def ParsePlatformConfigMap {PCM : Type} (env : Env PCM) (file : String) :
    Except StartupFailure PCM :=
  match ParseProtoTextFile env env.parsePlatformConfigMap file with
  | .ok platform_config_map => .ok platform_config_map
  | .error status => .error (.check_failed status)

/-- The fields of `ServerCore::Options` that depend on the flags. -/
structure ServerCore.Options (PCM : Type) where
  model_server_config : ModelServerConfig
  platform_config_map : PCM
  file_system_poll_wait_seconds : Int
deriving DecidableEq

/-- The message of the fatal error for a batching parameters file without batching. -/
def batchingFileWithoutBatching : String :=
  "You supplied --batching_parameters_file without --enable_batching"

/-- The local `session_bundle_config` of `main` as it is handed to
`CreateTensorFlowPlatformConfigMap` (lines 500-547), on the branch where no platform
configuration file is given. -/
def main.session_bundle_config {PCM : Type} (env : Env PCM) (flags : Flags) :
    Except StartupFailure SessionBundleConfig :=
  let session_bundle_config : SessionBundleConfig := {}
  let batching : Except StartupFailure SessionBundleConfig :=
    if flags.enable_batching then
      let batching_parameters : BatchingParameters := {}
      let batching_parameters :=
        { batching_parameters with max_batch_size := some flags.batch_size }
      let batching_parameters :=
        { batching_parameters with num_batch_threads := some flags.batch_threads }
      let batch_queue : Int := 9999999
      let batching_parameters :=
        { batching_parameters with max_enqueued_batches := some batch_queue }
      let batching_parameters :=
        { batching_parameters with batch_timeout_micros := some flags.batch_timeout }
      if flags.batching_parameters_file = "" then
        .ok { session_bundle_config with
                batching_parameters :=
                  some { batching_parameters with
                           thread_pool_name := some "model_server_batch_threads" } }
      else
        match ReadProtoFromFile env env.parseBatchingParameters
            flags.batching_parameters_file with
        | .ok proto => .ok { session_bundle_config with batching_parameters := some proto }
        | .error failure => .error failure
    else if flags.batching_parameters_file ≠ "" then
      .error (.fatal batchingFileWithoutBatching)
    else
      .ok session_bundle_config
  match batching with
  | .error failure => .error failure
  | .ok session_bundle_config =>
    .ok { session_bundle_config with
            session_config :=
              { session_bundle_config.session_config with
                  intra_op_parallelism_threads := flags.intra_op
                  inter_op_parallelism_threads := flags.inter_op } }

/-- The model server configuration that `main` puts into the options (lines
486-496): built from the model name and base path, or read from the model
configuration file when one is given. -/
def main.model_server_config {PCM : Type} (env : Env PCM) (flags : Flags) :
    Except StartupFailure ModelServerConfig :=
  if flags.model_config_file = "" then
    .ok (BuildSingleModelConfig env flags.model_name flags.model_base_path)
  else
    ReadProtoFromFile env env.parseModelServerConfig flags.model_config_file

/-- The platform configuration map that `main` puts into the options (lines 498-555):
derived from the session bundle configuration, or parsed from the platform
configuration file when one is given. -/
def main.platform_config_map {PCM : Type} (env : Env PCM) (flags : Flags) :
    Except StartupFailure PCM :=
  if flags.platform_config_file = "" then
    match main.session_bundle_config env flags with
    | .ok session_bundle_config =>
      .ok (env.CreateTensorFlowPlatformConfigMap session_bundle_config use_saved_model)
    | .error failure => .error failure
  else
    ParsePlatformConfigMap env flags.platform_config_file

/-- The function `main` from the check of the parsed flags to the assembled options of
the server core (lines 469-561).  `parse_result` is the result of `Flags::Parse`,
`flags` the variables as the parse leaves them. -/
def main {PCM : Type} (env : Env PCM) (parse_result : Bool) (flags : Flags) :
    Except StartupFailure (ServerCore.Options PCM) :=
  if parse_result = false ∨ (flags.model_base_path = "" ∧ flags.model_config_file = "") then
    .error (.returned (-1))
  else
    match main.model_server_config env flags with
    | .error failure => .error failure
    | .ok model_server_config =>
      match main.platform_config_map env flags with
      | .error failure => .error failure
      | .ok platform_config_map =>
        .ok { model_server_config := model_server_config
              platform_config_map := platform_config_map
              file_system_poll_wait_seconds := flags.file_system_poll_wait_seconds }

/-- A platform configuration map for examples: either the text of a platform
configuration file, or the session bundle configuration it is derived from. -/
inductive ExamplePlatformConfigMap where
  | parsed (text : String)
  | created (session_bundle_config : SessionBundleConfig) (use_saved_model : Bool)
deriving DecidableEq

/-- An environment for examples: every file can be read and holds its own name as
text; the text `batching.txt` parses to batching parameters that set the max batch
size to 8 and nothing else, every text parses to a platform configuration map, and no
text parses to a model server configuration. -/
def exampleEnv : Env ExamplePlatformConfigMap :=
  { NewReadOnlyMemoryRegionFromFile := fun file => .ok file
    parseModelServerConfig := fun _ => none
    parseBatchingParameters := fun text =>
      if text = "batching.txt" then some { max_batch_size := some 8 } else none
    parsePlatformConfigMap := fun text => some (.parsed text)
    CreateTensorFlowPlatformConfigMap := .created
    kTensorFlowModelPlatform := "tensorflow" }

/-- Flags that give a model base path and a batching parameters file, and leave
batching disabled. -/
def flagsBatchingFileOnly : Flags :=
  { model_base_path := "/models/m", batching_parameters_file := "batching.txt" }

/-- Flags that give a model base path, a batching parameters file and a platform
configuration file, and leave batching disabled. -/
def flagsBatchingFileAndPlatformFile : Flags :=
  { model_base_path := "/models/m", batching_parameters_file := "batching.txt",
    platform_config_file := "platform.txt" }

/-- Flags that give a model base path and enable batching, with a batch queue of 10. -/
def flagsBatchingEnabled : Flags :=
  { model_base_path := "/models/m", enable_batching := true, batch_queue := 10 }

/-- Flags that give a model base path, enable batching and give a batching parameters
file. -/
def flagsBatchingEnabledWithFile : Flags :=
  { model_base_path := "/models/m", enable_batching := true,
    batching_parameters_file := "batching.txt" }

/-! ## The metadata call, and the log of a fully served run -/

/-- The wire-level code `grpc::StatusCode::INVALID_ARGUMENT`, numerically 3 like the
engine-level code it is cast from. -/
def grpc.StatusCode.INVALID_ARGUMENT : Int := 3

/-- What a `GetModelMetadata` call does: the status it returns to the caller, and the
requests it has passed to the metadata operation of the engine
(`GetModelMetadataImpl::GetModelMetadata`), in order. -/
structure GetModelMetadataResult (Req : Type) where
  status : grpc.Status
  engine_requests : List Req
deriving DecidableEq

/-- The method `PredictionServiceImpl::GetModelMetadata` (lines 289-307).  The function
`GetModelMetadataImpl` gives the status with which the engine answers a request. -/
def GetModelMetadata {D Req : Type} (svc : PredictionServiceImpl D)
    (GetModelMetadataImpl : Req → tensorflow.Status) (request : Req) :
    GetModelMetadataResult Req :=
  if !svc.use_saved_model_ then
    { status := ToGRPCStatus (tensorflow.errors.InvalidArgument
        ("GetModelMetadata API is only available when use_saved_model is " ++
          "set to true"))
      engine_requests := [] }
  else
    let status := ToGRPCStatus (GetModelMetadataImpl request)
    { status := status, engine_requests := [request] }

/-- The calls 2 to `B + 1` of a run. -/
def loggedCalls (B : Nat) (calls : List PredictCall) : List PredictCall :=
  (calls.take (B + 1)).drop 1

end ModelServer

namespace ModelServer

theorem kTruncatedMarker_length : kTruncatedMarker.length = 12 := by
  decide

/-- Claim C1: for every engine status with code `c` and message `m`, `ToGRPCStatus`
returns a wire status whose code is `c` and whose message is `m` itself when `m` has at
most 1024 characters, and otherwise the first 1024 characters of `m` followed by the
marker `...TRUNCATED`. -/
theorem C1_ToGRPCStatus_code_and_message (c : Int) (m : CppString) :
    (ToGRPCStatus ⟨c, m⟩).code = c ∧
    (ToGRPCStatus ⟨c, m⟩).error_message =
      (if m.length ≤ 1024 then m else m.take 1024 ++ "...TRUNCATED".toList) := by
  refine ⟨rfl, ?_⟩
  by_cases h : m.length ≤ 1024
  · have h' : ¬ (m.length > kErrorMessageLimit) := by
      simpa [kErrorMessageLimit] using h
    simp [ToGRPCStatus, h, h']
  · have h' : m.length > kErrorMessageLimit := by
      simpa [kErrorMessageLimit] using h
    simp [ToGRPCStatus, h, h', kErrorMessageLimit, kTruncatedMarker]

/-! ## The status translator -/

theorem ToGRPCStatus_message_of_long (c : Int) (m : CppString) (h : m.length > 1024) :
    (ToGRPCStatus ⟨c, m⟩).error_message = m.take 1024 ++ kTruncatedMarker := by
  show (if m.length > 1024 then m.take 1024 ++ kTruncatedMarker else m) = _
  rw [if_pos h]

theorem ToGRPCStatus_length_of_long (c : Int) (m : CppString) (h : m.length > 1024) :
    (ToGRPCStatus ⟨c, m⟩).error_message.length = 1024 + kTruncatedMarker.length := by
  rw [ToGRPCStatus_message_of_long c m h, List.length_append, List.length_take]
  have hmin : min 1024 m.length = 1024 := by omega
  rw [hmin]

/-- Claim C2, refuted as stated: the message of 1025 characters `a` is longer than 1024
characters, and the message of its translation does not have 1025 characters plus the
length of the marker. -/
theorem C2_counterexample_length_1025 :
    (List.replicate 1025 'a').length > 1024 ∧
    (ToGRPCStatus ⟨0, List.replicate 1025 'a'⟩).error_message.length
      ≠ 1025 + kTruncatedMarker.length := by
  have hlen : (List.replicate 1025 'a').length > 1024 := by
    rw [List.length_replicate]; decide
  refine ⟨hlen, ?_⟩
  rw [ToGRPCStatus_length_of_long 0 _ hlen]
  omega

/-- Claim C2, amended: for every message longer than 1024 characters, the message of
the status returned by `ToGRPCStatus` has length exactly 1024 plus the length of the
truncation marker, and ends in the truncation marker. -/
theorem C2_truncated_message_length (c : Int) (m : CppString) (h : m.length > 1024) :
    (ToGRPCStatus ⟨c, m⟩).error_message.length = 1024 + kTruncatedMarker.length ∧
    kTruncatedMarker <:+ (ToGRPCStatus ⟨c, m⟩).error_message := by
  refine ⟨ToGRPCStatus_length_of_long c m h, ?_⟩
  rw [ToGRPCStatus_message_of_long c m h]
  exact List.suffix_append _ _

/-- Witness of `C2_truncated_message_length`: a message of 1025 characters. -/
theorem C2_truncated_message_length_witness :
    (List.replicate 1025 'a').length > 1024 ∧
    (ToGRPCStatus ⟨3, List.replicate 1025 'a'⟩).error_message.length
        = 1024 + kTruncatedMarker.length ∧
    kTruncatedMarker <:+ (ToGRPCStatus ⟨3, List.replicate 1025 'a'⟩).error_message :=
  ⟨by rw [List.length_replicate]; decide,
   C2_truncated_message_length 3 (List.replicate 1025 'a')
     (by rw [List.length_replicate]; decide)⟩

/-! ## Arrival pacing -/

theorem vectorAt_natCast {D : Type} (v : List D) (i : Nat) :
    vectorAt v (i : Int) = v[i]? := by
  simp [vectorAt]

section Pacing

variable {D : Type} [Add D]

/-- The pre-call step on an object whose cursor is the index `c` of the schedule. -/
theorem pace_of_cursor (svc : PredictionServiceImpl D) (c : Nat)
    (hc : svc.qy_income_request_count = (c : Int))
    (hlt : c < svc.interarrival_time_generated.length) :
    Predict.pace svc =
      some ({ svc with
                total_waiting_time :=
                  svc.total_waiting_time + svc.interarrival_time_generated.get ⟨c, hlt⟩
                qy_income_request_count :=
                  (((c + 1) % svc.interarrival_time_generated.length : Nat) : Int) },
            svc.total_waiting_time + svc.interarrival_time_generated.get ⟨c, hlt⟩) := by
  have hget : vectorAt svc.interarrival_time_generated svc.qy_income_request_count
      = some (svc.interarrival_time_generated.get ⟨c, hlt⟩) := by
    rw [hc, vectorAt_natCast]
    exact List.getElem?_eq_getElem hlt
  unfold Predict.pace
  rw [hget]
  simp only [hc]
  by_cases hwrap : c + 1 = svc.interarrival_time_generated.length
  · have h1 : ((c : Int) + 1 ≥ (svc.interarrival_time_generated.length : Int)) := by
      omega
    have h2 : (c + 1) % svc.interarrival_time_generated.length = 0 := by
      rw [hwrap]; exact Nat.mod_self _
    have h3 : (c : Int) + 1 - (svc.interarrival_time_generated.length : Int) = 0 := by
      omega
    simp only [h1, if_true, h2, h3, Nat.cast_zero]
  · have h1 : ¬ ((c : Int) + 1 ≥ (svc.interarrival_time_generated.length : Int)) := by
      omega
    have h2 : (c + 1) % svc.interarrival_time_generated.length = c + 1 :=
      Nat.mod_eq_of_lt (by omega)
    simp only [h1, if_false, h2, Nat.cast_add, Nat.cast_one]

end Pacing

theorem pace_of_vectorAt {D : Type} [Add D] (svc : PredictionServiceImpl D) (d : D)
    (hd : vectorAt svc.interarrival_time_generated svc.qy_income_request_count = some d) :
    ∃ svc', Predict.pace svc = some (svc', svc.total_waiting_time + d) ∧
      svc'.total_waiting_time = svc.total_waiting_time + d ∧
      svc'.qy_request_count = svc.qy_request_count ∧
      svc'.qy_total_request_count = svc.qy_total_request_count ∧
      svc'.interarrival_time_generated = svc.interarrival_time_generated ∧
      svc'.use_saved_model_ = svc.use_saved_model_ := by
  unfold Predict.pace
  rw [hd]
  exact ⟨_, rfl, rfl, rfl, rfl, rfl, rfl⟩

/-- The world after a `Predict` call whose pre-call step is defined: whatever the
engine answers, the call has first slept for the duration the pre-call step hands to
`sleep_for`. -/
theorem Predict_slept {D : Type} [Add D] (svc svc' : PredictionServiceImpl D) (t : D)
    (world : World D) (call : PredictCall) (hp : Predict.pace svc = some (svc', t)) :
    (Predict svc world call).world.map (fun w => w.slept) = some (world.slept ++ [t]) := by
  unfold Predict
  rw [hp]
  simp only
  split_ifs <;> simp [PredictResult.world]

/-- Claim C6, refuted as stated: with the schedule `[1]`, the first call that arrives
when 5 units of time have elapsed since process start is put to sleep for 1 unit,
whereas sleeping until the elapsed time reaches the accumulated wait `1` would be no
sleep at all. -/
theorem C6_counterexample_sleep_ignores_elapsed_time :
    ∃ svc t, Predict.pace (PredictionServiceImpl.new 0 [(1 : ℚ)] true) = some (svc, t) ∧
      svc.total_waiting_time = 1 ∧ t = 1 ∧
      sleepUntilElapsed svc.total_waiting_time 5 = 0 ∧
      t ≠ sleepUntilElapsed svc.total_waiting_time 5 := by
  have hp := pace_of_cursor (PredictionServiceImpl.new 0 [(1 : ℚ)] true) 0 rfl (by decide)
  refine ⟨_, _, hp, ?_, ?_, ?_, ?_⟩ <;>
    norm_num [PredictionServiceImpl.new, sleepUntilElapsed]

/-- Claim C6, amended: for every `Predict` call whose cursor lies inside the schedule,
the pre-call step hands to `sleep_for` exactly the updated accumulated wait, that is the
previous accumulated wait plus the inter-arrival duration under the cursor: a delay of
that length counted from the call itself, in which no reading of the clock takes
part. -/
theorem C6_sleep_request_is_accumulated_wait {D : Type} [Add D]
    (svc : PredictionServiceImpl D) (world : World D) (call : PredictCall) (d : D)
    (hd : vectorAt svc.interarrival_time_generated svc.qy_income_request_count = some d) :
    (Predict.pace svc).map (fun r => (r.1.total_waiting_time, r.2))
      = some (svc.total_waiting_time + d, svc.total_waiting_time + d) ∧
    (Predict svc world call).world.map (fun w => w.slept)
      = some (world.slept ++ [svc.total_waiting_time + d]) := by
  obtain ⟨svc', hp, htot, -⟩ := pace_of_vectorAt svc d hd
  refine ⟨?_, Predict_slept svc svc' _ world call hp⟩
  rw [hp]
  simp [htot]

/-- Witness of `C6_sleep_request_is_accumulated_wait`: the second call on the schedule
`[3, 4]`, made when the accumulated wait is 3, sleeps for 7. -/
theorem C6_sleep_request_is_accumulated_wait_witness :
    vectorAt [(3 : Int), 4] 1 = some 4 ∧
    (Predict.pace ({ PredictionServiceImpl.new 2 [(3 : Int), 4] true with
        qy_income_request_count := 1, total_waiting_time := 3 })).map
        (fun r => (r.1.total_waiting_time, r.2)) = some (3 + 4, 3 + 4) ∧
    (Predict ({ PredictionServiceImpl.new 2 [(3 : Int), 4] true with
        qy_income_request_count := 1, total_waiting_time := 3 })
        (⟨[3], [], [], []⟩ : World Int) ⟨tensorflow.Status.OK, 10, 15, false, false, false⟩).world.map
        (fun w => w.slept) = some ([3] ++ [3 + 4]) :=
  ⟨by decide,
   C6_sleep_request_is_accumulated_wait
     ({ PredictionServiceImpl.new 2 [(3 : Int), 4] true with
        qy_income_request_count := 1, total_waiting_time := 3 })
     (⟨[3], [], [], []⟩ : World Int) ⟨tensorflow.Status.OK, 10, 15, false, false, false⟩ 4 (by decide)⟩

/-! ## Serving calls: the budget and the latency log -/

theorem ToGRPCStatus_ok (status : tensorflow.Status) :
    (ToGRPCStatus status).ok = status.ok := rfl

theorem new_cursorInSchedule {D : Type} [Zero D] (B : Int) (s : List D) (hs : s ≠ [])
    (usm : Bool) : (PredictionServiceImpl.new B s usm).cursorInSchedule := by
  have : 0 < s.length := List.length_pos.mpr hs
  constructor
  · exact le_refl _
  · show (0 : Int) < (s.length : Int)
    omega

/-- The pre-call step is defined on an object whose cursor is inside the schedule, and
leaves the cursor inside the schedule. -/
theorem pace_of_cursorInSchedule {D : Type} [Add D] (svc : PredictionServiceImpl D)
    (hv : svc.cursorInSchedule) :
    ∃ svc' t, Predict.pace svc = some (svc', t) ∧ svc'.cursorInSchedule ∧
      svc'.qy_request_count = svc.qy_request_count ∧
      svc'.qy_total_request_count = svc.qy_total_request_count ∧
      svc'.interarrival_time_generated = svc.interarrival_time_generated := by
  obtain ⟨h0, hlt⟩ := hv
  have hc : svc.qy_income_request_count = ((svc.qy_income_request_count.toNat : Nat) : Int) :=
    (Int.toNat_of_nonneg h0).symm
  have hlt' : svc.qy_income_request_count.toNat < svc.interarrival_time_generated.length := by
    omega
  refine ⟨_, _, pace_of_cursor svc _ hc hlt', ⟨?_, ?_⟩, rfl, rfl, rfl⟩
  · exact Int.natCast_nonneg _
  · exact Int.ofNat_lt.mpr (Nat.mod_lt _ (by omega))

theorem wrapInt32_of_range (x : Int) (hlo : -2147483648 ≤ x) (hhi : x ≤ 2147483647) :
    wrapInt32 x = x := by
  unfold wrapInt32
  omega

theorem clampInt32_of_range (x : Int) (hlo : -2147483648 ≤ x) (hhi : x ≤ 2147483647) :
    clampInt32 x = x := by
  unfold clampInt32 INT_MAX INT_MIN
  rw [if_neg (by omega), if_neg (by omega)]

/-- A `Predict` call that the engine serves successfully, on an object whose cursor is
inside the schedule. -/
theorem Predict_served {D : Type} [Add D] (svc : PredictionServiceImpl D)
    (world : World D) (call : PredictCall) (hv : svc.cursorInSchedule)
    (hok : call.engine.ok = true) :
    ∃ svc' world', svc'.cursorInSchedule ∧
      svc'.qy_request_count = wrapInt32 (svc.qy_request_count + 1) ∧
      svc'.qy_total_request_count = svc.qy_total_request_count ∧
      svc'.interarrival_time_generated = svc.interarrival_time_generated ∧
      world'.main_txt = world.main_txt ++ latencyLines svc.qy_request_count call ∧
      world'.main_start_txt = world.main_start_txt ++
        (if svc.qy_request_count > 0 ∧ call.main_start_txt_fail = false then
          [call.start_time] else []) ∧
      world'.main_end_txt = world.main_end_txt ++
        (if svc.qy_request_count > 0 ∧ call.main_end_txt_fail = false then
          [call.end_time] else []) ∧
      Predict svc world call =
        (if wrapInt32 (svc.qy_request_count + 1) > svc.qy_total_request_count then
          .exited 0 svc' world'
        else .returned svc' world' (ToGRPCStatus call.engine)) := by
  obtain ⟨svc₁, t, hp, hv₁, hc₁, ht₁, hs₁⟩ := pace_of_cursorInSchedule svc hv
  have hok' : (ToGRPCStatus call.engine).ok = true := hok
  by_cases hpos : svc.qy_request_count > 0
  · refine ⟨{ svc₁ with qy_request_count := wrapInt32 (svc₁.qy_request_count + 1) },
      { slept := world.slept ++ [t]
        main_txt :=
          appendLine call.main_txt_fail world.main_txt (call.end_time - call.start_time)
        main_start_txt :=
          appendLine call.main_start_txt_fail world.main_start_txt call.start_time
        main_end_txt :=
          appendLine call.main_end_txt_fail world.main_end_txt call.end_time },
      hv₁, by simp [hc₁], ht₁, hs₁, ?_, ?_, ?_, ?_⟩
    · cases hf : call.main_txt_fail <;> simp [latencyLines, appendLine, hpos, hf]
    · cases hf : call.main_start_txt_fail <;> simp [appendLine, hpos, hf]
    · cases hf : call.main_end_txt_fail <;> simp [appendLine, hpos, hf]
    · unfold Predict
      rw [hp]
      simp only [hok', hc₁, ht₁, hpos, Bool.not_true, Bool.false_eq_true, if_false, if_true]
  · refine ⟨{ svc₁ with qy_request_count := wrapInt32 (svc₁.qy_request_count + 1) },
      { world with slept := world.slept ++ [t] },
      hv₁, by simp [hc₁], ht₁, hs₁, by simp [latencyLines, hpos], by simp [hpos],
      by simp [hpos], ?_⟩
    unfold Predict
    rw [hp]
    simp only [hok', hc₁, ht₁, hpos, Bool.not_true, Bool.false_eq_true, if_false]

/-- A `Predict` call for which the engine reports a failure, on an object whose cursor
is inside the schedule. -/
theorem Predict_failed {D : Type} [Add D] (svc : PredictionServiceImpl D)
    (world : World D) (call : PredictCall) (hv : svc.cursorInSchedule)
    (hok : call.engine.ok = false) :
    ∃ svc' world', svc'.cursorInSchedule ∧
      svc'.qy_request_count = svc.qy_request_count ∧
      svc'.qy_total_request_count = svc.qy_total_request_count ∧
      svc'.interarrival_time_generated = svc.interarrival_time_generated ∧
      world'.main_txt = world.main_txt ∧
      world'.main_start_txt = world.main_start_txt ∧
      world'.main_end_txt = world.main_end_txt ∧
      Predict svc world call = .returned svc' world' (ToGRPCStatus call.engine) := by
  obtain ⟨svc₁, t, hp, hv₁, hc₁, ht₁, hs₁⟩ := pace_of_cursorInSchedule svc hv
  have hok' : (ToGRPCStatus call.engine).ok = false := hok
  refine ⟨svc₁, { world with slept := world.slept ++ [t] }, hv₁, hc₁, ht₁, hs₁,
    rfl, rfl, rfl, ?_⟩
  unfold Predict
  rw [hp]
  simp only [hok', Bool.not_false, if_true]

theorem servedCalls_cons (call : PredictCall) (calls : List PredictCall) :
    servedCalls (call :: calls) = (if call.engine.ok then 1 else 0) + servedCalls calls := by
  unfold servedCalls
  by_cases h : call.engine.ok = true
  · simp [List.filter_cons, h, Nat.add_comm]
  · simp [List.filter_cons, h]

theorem serveAll_cons {D : Type} [Add D] (p : Process D) (call : PredictCall)
    (calls : List PredictCall) :
    Process.serveAll p (call :: calls) = Process.serveAll (p.serve call) calls := rfl

theorem serveAll_append {D : Type} [Add D] (p : Process D) (xs ys : List PredictCall) :
    Process.serveAll p (xs ++ ys) = Process.serveAll (Process.serveAll p xs) ys :=
  List.foldl_append _ _ _ _

theorem serveAll_exited {D : Type} [Add D] (code : Int) (svc : PredictionServiceImpl D)
    (world : World D) (calls : List PredictCall) :
    Process.serveAll (.exited code svc world) calls = .exited code svc world := by
  induction calls with
  | nil => rfl
  | cons call calls ih => rw [serveAll_cons]; exact ih

theorem serveAll_undefined {D : Type} [Add D] (calls : List PredictCall) :
    Process.serveAll (Process.undefined : Process D) calls = .undefined := by
  induction calls with
  | nil => rfl
  | cons call calls ih => rw [serveAll_cons]; exact ih

/-- A run keeps the process running as long as the number of calls served successfully
stays within the budget, and the counter of the object, which starts in the range of
`int` as the budget does, counts those calls. -/
theorem serveAll_running {D : Type} [Add D] (calls : List PredictCall) :
    ∀ (svc : PredictionServiceImpl D) (world : World D), svc.cursorInSchedule →
      -2147483648 ≤ svc.qy_request_count → svc.qy_total_request_count ≤ 2147483647 →
      (servedCalls calls = 0 ∨
        svc.qy_request_count + (servedCalls calls : Int) ≤ svc.qy_total_request_count) →
      ∃ svc' world', Process.serveAll (.running svc world) calls = .running svc' world' ∧
        svc'.cursorInSchedule ∧
        svc'.qy_request_count = svc.qy_request_count + (servedCalls calls : Int) ∧
        svc'.qy_total_request_count = svc.qy_total_request_count ∧
        svc'.interarrival_time_generated = svc.interarrival_time_generated := by
  induction calls with
  | nil =>
    intro svc world hv _ _ _
    exact ⟨svc, world, rfl, hv, by simp [servedCalls], rfl, rfl⟩
  | cons call calls ih =>
    intro svc world hv hlo hmax hbudget
    rw [servedCalls_cons] at hbudget ⊢
    by_cases hok : call.engine.ok = true
    · simp only [hok, if_true] at hbudget ⊢
      have hle : svc.qy_request_count + ((1 + servedCalls calls : Nat) : Int)
          ≤ svc.qy_total_request_count := by
        rcases hbudget with h | h
        · omega
        · exact h
      push_cast at hle
      obtain ⟨svc₁, world₁, hv₁, hc₁, ht₁, hs₁, -, -, -, hP⟩ :=
        Predict_served svc world call hv hok
      have hwrap : wrapInt32 (svc.qy_request_count + 1) = svc.qy_request_count + 1 :=
        wrapInt32_of_range _ (by omega) (by omega)
      rw [hwrap] at hc₁ hP
      have hnot : ¬ (svc.qy_request_count + 1 > svc.qy_total_request_count) := by
        omega
      rw [if_neg hnot] at hP
      obtain ⟨svc₂, world₂, hrun, hv₂, hc₂, ht₂, hs₂⟩ := ih svc₁ world₁ hv₁
        (by rw [hc₁]; omega) (by rw [ht₁]; exact hmax)
        (Or.inr (by rw [hc₁, ht₁]; omega))
      refine ⟨svc₂, world₂, ?_, hv₂, ?_, ht₂.trans ht₁, hs₂.trans hs₁⟩
      · rw [serveAll_cons]
        simp only [Process.serve, hP, PredictResult.process]
        exact hrun
      · rw [hc₂, hc₁]; push_cast; ring
    · have hok' : call.engine.ok = false := by simpa using hok
      simp only [hok', Bool.false_eq_true, if_false, Nat.zero_add] at hbudget ⊢
      obtain ⟨svc₁, world₁, hv₁, hc₁, ht₁, hs₁, -, -, -, hP⟩ :=
        Predict_failed svc world call hv hok'
      obtain ⟨svc₂, world₂, hrun, hv₂, hc₂, ht₂, hs₂⟩ := ih svc₁ world₁ hv₁
        (by rw [hc₁]; exact hlo) (by rw [ht₁]; exact hmax)
        (by rw [hc₁, ht₁]; exact hbudget)
      refine ⟨svc₂, world₂, ?_, hv₂, ?_, ht₂.trans ht₁, hs₂.trans hs₁⟩
      · rw [serveAll_cons]
        simp only [Process.serve, hP, PredictResult.process]
        exact hrun
      · rw [hc₂, hc₁]

theorem new_total_of_range {D : Type} [Zero D] (B : Int) (s : List D) (usm : Bool)
    (hlo : 0 ≤ B) (hhi : B ≤ 2147483647) :
    (PredictionServiceImpl.new B s usm).qy_total_request_count = B :=
  clampInt32_of_range B (by omega) hhi

theorem servedCalls_replicate (n : Nat) :
    servedCalls (List.replicate n servedCall) = n := by
  induction n with
  | zero => rfl
  | succ n ih =>
    rw [List.replicate_succ, servedCalls_cons, ih]
    have : servedCall.engine.ok = true := rfl
    rw [this, if_pos rfl, Nat.add_comm]

/-- With the largest budget an `int` can hold, `2^31 - 1` served calls leave the process
serving with the counter at that budget. -/
theorem serveAll_replicate_servedCall :
    ∃ (svc : PredictionServiceImpl Int) (w : World Int),
      Process.serveAll
          (.running (PredictionServiceImpl.new 2147483647 [(0 : Int)] true) World.initial)
          (List.replicate 2147483647 servedCall) = .running svc w ∧
      svc.cursorInSchedule ∧ svc.qy_request_count = 2147483647 ∧
      svc.qy_total_request_count = 2147483647 := by
  have htot : (PredictionServiceImpl.new 2147483647 [(0 : Int)] true).qy_total_request_count
      = 2147483647 := new_total_of_range _ _ _ (by omega) (by omega)
  have hcnt : (PredictionServiceImpl.new 2147483647 [(0 : Int)] true).qy_request_count
      = 0 := rfl
  obtain ⟨svc, w, hrun, hv, hc, ht, -⟩ :=
    serveAll_running (List.replicate 2147483647 servedCall)
      (PredictionServiceImpl.new 2147483647 [(0 : Int)] true) World.initial
      (new_cursorInSchedule _ _ (List.cons_ne_nil _ _) _)
      (by rw [hcnt]; omega) (by rw [htot])
      (Or.inr (by rw [hcnt, htot, servedCalls_replicate]; omega))
  refine ⟨svc, w, hrun, hv, ?_, ht.trans htot⟩
  rw [hc, hcnt, servedCalls_replicate]
  omega

/-- With the largest budget an `int` can hold, the served call that follows `2^31 - 1`
served calls is logged and returns its status: the counter wraps to `INT_MIN`, which
does not exceed the budget. -/
theorem Predict_at_INT_MAX (svc : PredictionServiceImpl Int) (w : World Int)
    (hv : svc.cursorInSchedule) (hc : svc.qy_request_count = 2147483647)
    (ht : svc.qy_total_request_count = 2147483647) :
    ∃ svc' w', Predict svc w servedCall = .returned svc' w' ⟨0, []⟩ ∧
      svc'.cursorInSchedule ∧ svc'.qy_request_count = -2147483648 ∧
      svc'.qy_total_request_count = 2147483647 := by
  obtain ⟨svc', w', hv', hc', ht', -, -, -, -, hP⟩ :=
    Predict_served svc w servedCall hv rfl
  have hwrap : wrapInt32 (svc.qy_request_count + 1) = -2147483648 := by
    rw [hc]; decide
  rw [hwrap] at hc' hP
  rw [ht, if_neg (by omega)] at hP
  exact ⟨svc', w', hP, hv', hc', ht'.trans ht⟩

/-- With the largest budget an `int` can hold, `2^31` served calls leave the process
serving, with the counter at `INT_MIN`. -/
theorem serveAll_manyServedCalls :
    ∃ (svc : PredictionServiceImpl Int) (w : World Int),
      Process.serveAll
          (.running (PredictionServiceImpl.new 2147483647 [(0 : Int)] true) World.initial)
          manyServedCalls = .running svc w ∧
      svc.cursorInSchedule ∧ svc.qy_request_count = -2147483648 ∧
      svc.qy_total_request_count = 2147483647 := by
  obtain ⟨svc₀, w₀, hrun, hv, hc, ht⟩ := serveAll_replicate_servedCall
  obtain ⟨svc, w, hP, hv', hc', ht'⟩ := Predict_at_INT_MAX svc₀ w₀ hv hc ht
  refine ⟨svc, w, ?_, hv', hc', ht'⟩
  have hsplit : manyServedCalls = List.replicate 2147483647 servedCall ++ [servedCall] :=
    List.replicate_succ' 2147483647 servedCall
  rw [hsplit, serveAll_append, hrun]
  show Process.serve (.running svc₀ w₀) servedCall = _
  simp only [Process.serve, hP, PredictResult.process]

/-- Claim C7, refuted as stated: with a batching parameters file, batching disabled and
a platform configuration file that parses, `main` assembles the options of the server
core; the platform configuration is the one of the file. -/
theorem C7_counterexample_platform_file_skips_check :
    flagsBatchingFileAndPlatformFile.batching_parameters_file ≠ "" ∧
    flagsBatchingFileAndPlatformFile.enable_batching = false ∧
    main exampleEnv true flagsBatchingFileAndPlatformFile =
      .ok { model_server_config :=
              { model_config_list := [⟨"default", "/models/m", "tensorflow"⟩] }
            platform_config_map := .parsed "platform.txt"
            file_system_poll_wait_seconds := 1 } := by
  refine ⟨by decide, by decide, ?_⟩
  rfl

/-- Claim C7, amended: for every startup input in which a batching parameters file is
supplied, batching is not enabled and no platform configuration file is supplied,
whatever the other inputs are, the assembly of the platform configuration fails with
the fatal error of the batching check, and `main` produces no options: it fails, and
fatally so once the parsed flags have passed their check. -/
theorem C7_batching_file_without_batching_is_fatal {PCM : Type} (env : Env PCM)
    (parse_result : Bool) (flags : Flags)
    (hfile : flags.batching_parameters_file ≠ "")
    (hoff : flags.enable_batching = false)
    (hplat : flags.platform_config_file = "") :
    main.platform_config_map env flags = .error (.fatal batchingFileWithoutBatching) ∧
    ∃ failure, main env parse_result flags = .error failure ∧
      (parse_result = true →
        ¬ (flags.model_base_path = "" ∧ flags.model_config_file = "") →
        failure.isFatal = true) := by
  have hsbc : main.session_bundle_config env flags
      = .error (.fatal batchingFileWithoutBatching) := by
    simp [main.session_bundle_config, hoff, hfile]
  have hpcm : main.platform_config_map env flags
      = .error (.fatal batchingFileWithoutBatching) := by
    simp [main.platform_config_map, hplat, hsbc]
  refine ⟨hpcm, ?_⟩
  unfold main
  by_cases hbad : parse_result = false ∨
      (flags.model_base_path = "" ∧ flags.model_config_file = "")
  · refine ⟨.returned (-1), by rw [if_pos hbad], ?_⟩
    intro hp hm
    rcases hbad with h | h
    · rw [hp] at h; exact absurd h (by decide)
    · exact absurd h hm
  · rw [if_neg hbad, hpcm]
    cases hmsc : main.model_server_config env flags with
    | error failure =>
      refine ⟨failure, rfl, fun _ _ => ?_⟩
      unfold main.model_server_config at hmsc
      split_ifs at hmsc
      unfold ReadProtoFromFile at hmsc
      split at hmsc
      · exact Except.noConfusion hmsc
      · injection hmsc with h
        rw [← h]
        rfl
    | ok model_server_config =>
      exact ⟨.fatal batchingFileWithoutBatching, rfl, fun _ _ => rfl⟩

/-- Witness of `C7_batching_file_without_batching_is_fatal`: a model base path, the
batching parameters file `batching.txt`, batching disabled, no platform configuration
file. -/
theorem C7_batching_file_without_batching_is_fatal_witness :
    flagsBatchingFileOnly.batching_parameters_file ≠ "" ∧
    flagsBatchingFileOnly.enable_batching = false ∧
    flagsBatchingFileOnly.platform_config_file = "" ∧
    main exampleEnv true flagsBatchingFileOnly
      = .error (.fatal batchingFileWithoutBatching) ∧
    (main.platform_config_map exampleEnv flagsBatchingFileOnly
        = .error (.fatal batchingFileWithoutBatching) ∧
      ∃ failure, main exampleEnv true flagsBatchingFileOnly = .error failure ∧
        (true = true →
          ¬ (flagsBatchingFileOnly.model_base_path = "" ∧
              flagsBatchingFileOnly.model_config_file = "") →
          failure.isFatal = true)) :=
  ⟨by decide, by decide, by decide, rfl,
   C7_batching_file_without_batching_is_fatal exampleEnv true flagsBatchingFileOnly
     (by decide) (by decide) (by decide)⟩

/-- The session bundle configuration that `main` derives when batching is enabled and
no batching parameters file is given: the batch size, the number of batch threads and
the batch timeout of the flags, the fixed thread pool name, and 9999999 enqueued
batches whatever the flag `batch_queue` says. -/
theorem session_bundle_config_of_flags {PCM : Type} (env : Env PCM) (flags : Flags)
    (hon : flags.enable_batching = true) (hfile : flags.batching_parameters_file = "") :
    main.session_bundle_config env flags =
      .ok { session_config :=
              { intra_op_parallelism_threads := flags.intra_op
                inter_op_parallelism_threads := flags.inter_op }
            batching_parameters :=
              some { max_batch_size := some flags.batch_size
                     num_batch_threads := some flags.batch_threads
                     max_enqueued_batches := some 9999999
                     batch_timeout_micros := some flags.batch_timeout
                     thread_pool_name := some "model_server_batch_threads" } } := by
  simp [main.session_bundle_config, hon, hfile]

/-- Claim C8, at the failing input: with batching enabled, no platform configuration
file, no batching parameters file and the flag `batch_queue` at 10, the assembled
batching parameters have the batch size, the thread count and the timeout of the flags
and the fixed thread pool name, but 9999999 enqueued batches instead of the 10 that
were supplied. -/
theorem C8_batch_queue_flag_is_overwritten :
    flagsBatchingEnabled.enable_batching = true ∧
    flagsBatchingEnabled.platform_config_file = "" ∧
    flagsBatchingEnabled.batching_parameters_file = "" ∧
    flagsBatchingEnabled.batch_queue = 10 ∧
    main exampleEnv true flagsBatchingEnabled =
      .ok { model_server_config :=
              { model_config_list := [⟨"default", "/models/m", "tensorflow"⟩] }
            platform_config_map :=
              .created
                { session_config :=
                    { intra_op_parallelism_threads := 10
                      inter_op_parallelism_threads := 10 }
                  batching_parameters :=
                    some { max_batch_size := some 50
                           num_batch_threads := some 1
                           max_enqueued_batches := some 9999999
                           batch_timeout_micros := some 1000000
                           thread_pool_name := some "model_server_batch_threads" } }
                true
            file_system_poll_wait_seconds := 1 } ∧
    (main.session_bundle_config exampleEnv flagsBatchingEnabled).map
        (fun c => c.batching_parameters.bind (fun b => b.max_enqueued_batches))
      = .ok (some 9999999) ∧
    (9999999 : Int) ≠ flagsBatchingEnabled.batch_queue := by
  refine ⟨rfl, rfl, rfl, rfl, rfl, ?_, by decide⟩
  rw [session_bundle_config_of_flags exampleEnv flagsBatchingEnabled rfl rfl]
  rfl

/-- Claim C9: for every startup input with batching enabled, no platform configuration
file and a batching parameters file that parses to `P`, the assembled batching
parameters are `P` itself, whatever the flags for batch size, thread count, queue
depth and timeout are: the session bundle configuration handed to
`CreateTensorFlowPlatformConfigMap` holds `P` and the two thread counts, and nothing
of the flags or of the default thread pool name in a field that `P` leaves unset. -/
theorem C9_batching_file_replaces_flag_values {PCM : Type} (env : Env PCM)
    (flags : Flags) (P : BatchingParameters)
    (hon : flags.enable_batching = true)
    (hplat : flags.platform_config_file = "")
    (hfile : flags.batching_parameters_file ≠ "")
    (hparse : ParseProtoTextFile env env.parseBatchingParameters
      flags.batching_parameters_file = .ok P) :
    main.session_bundle_config env flags =
      .ok { session_config :=
              { intra_op_parallelism_threads := flags.intra_op
                inter_op_parallelism_threads := flags.inter_op }
            batching_parameters := some P } ∧
    main.platform_config_map env flags =
      .ok (env.CreateTensorFlowPlatformConfigMap
        { session_config :=
            { intra_op_parallelism_threads := flags.intra_op
              inter_op_parallelism_threads := flags.inter_op }
          batching_parameters := some P } use_saved_model) := by
  have hsbc : main.session_bundle_config env flags =
      .ok { session_config :=
              { intra_op_parallelism_threads := flags.intra_op
                inter_op_parallelism_threads := flags.inter_op }
            batching_parameters := some P } := by
    simp [main.session_bundle_config, hon, hfile, ReadProtoFromFile, hparse]
  refine ⟨hsbc, ?_⟩
  simp [main.platform_config_map, hplat, hsbc]

/-- Witness of `C9_batching_file_replaces_flag_values`: the file `batching.txt` sets
only the max batch size, to 8; the assembled batching parameters have no thread count,
no queue depth, no timeout and no thread pool name. -/
theorem C9_batching_file_replaces_flag_values_witness :
    flagsBatchingEnabledWithFile.enable_batching = true ∧
    flagsBatchingEnabledWithFile.platform_config_file = "" ∧
    flagsBatchingEnabledWithFile.batching_parameters_file ≠ "" ∧
    ParseProtoTextFile exampleEnv exampleEnv.parseBatchingParameters
      flagsBatchingEnabledWithFile.batching_parameters_file
      = .ok { max_batch_size := some 8 } ∧
    (main.session_bundle_config exampleEnv flagsBatchingEnabledWithFile =
      .ok { session_config :=
              { intra_op_parallelism_threads := flagsBatchingEnabledWithFile.intra_op
                inter_op_parallelism_threads := flagsBatchingEnabledWithFile.inter_op }
            batching_parameters :=
              some { max_batch_size := some 8, batch_timeout_micros := none,
                     max_enqueued_batches := none, num_batch_threads := none,
                     thread_pool_name := none } } ∧
    main.platform_config_map exampleEnv flagsBatchingEnabledWithFile =
      .ok (exampleEnv.CreateTensorFlowPlatformConfigMap
        { session_config :=
            { intra_op_parallelism_threads := flagsBatchingEnabledWithFile.intra_op
              inter_op_parallelism_threads := flagsBatchingEnabledWithFile.inter_op }
          batching_parameters := some { max_batch_size := some 8 } } use_saved_model)) :=
  ⟨rfl, rfl, by decide, rfl,
   C9_batching_file_replaces_flag_values exampleEnv flagsBatchingEnabledWithFile
     { max_batch_size := some 8 } rfl rfl (by decide) rfl⟩

/-- Claim C10: for every startup input with a platform configuration file that parses
to `M`, the assembled platform configuration is `M`, so that `main` produces options
holding `M` whenever the parsed flags pass their check and the model server
configuration is assembled; and any input that differs from it only in the batching
flag, the batch size, thread count, queue depth and timeout, or the inter-op and
intra-op thread counts makes `main` end in the same way, with the same options. -/
theorem C10_platform_file_is_used_verbatim {PCM : Type} (env : Env PCM)
    (parse_result : Bool) (flags flags' : Flags) (M : PCM)
    (hfile : flags.platform_config_file ≠ "")
    (hparse : ParseProtoTextFile env env.parsePlatformConfigMap
      flags.platform_config_file = .ok M)
    (hsame : flags' = { flags with
      enable_batching := flags'.enable_batching
      batch_size := flags'.batch_size
      batch_threads := flags'.batch_threads
      batch_queue := flags'.batch_queue
      batch_timeout := flags'.batch_timeout
      inter_op := flags'.inter_op
      intra_op := flags'.intra_op }) :
    main.platform_config_map env flags = .ok M ∧
    main.platform_config_map env flags' = .ok M ∧
    main env parse_result flags =
      (if parse_result = false ∨
          (flags.model_base_path = "" ∧ flags.model_config_file = "") then
        .error (.returned (-1))
      else
        (main.model_server_config env flags).map (fun model_server_config =>
          { model_server_config := model_server_config
            platform_config_map := M
            file_system_poll_wait_seconds := flags.file_system_poll_wait_seconds })) ∧
    main env parse_result flags' = main env parse_result flags := by
  have hpcm : main.platform_config_map env flags = .ok M := by
    simp [main.platform_config_map, hfile, ParsePlatformConfigMap, hparse]
  have hpcm' : main.platform_config_map env flags' = .ok M := by
    rw [hsame]
    simp [main.platform_config_map, hfile, ParsePlatformConfigMap, hparse]
  have hmsc : main.model_server_config env flags' = main.model_server_config env flags := by
    rw [hsame]
    rfl
  have hmain : ∀ f : Flags, main.platform_config_map env f = .ok M →
      main env parse_result f =
        (if parse_result = false ∨ (f.model_base_path = "" ∧ f.model_config_file = "") then
          .error (.returned (-1))
        else
          (main.model_server_config env f).map (fun model_server_config =>
            { model_server_config := model_server_config
              platform_config_map := M
              file_system_poll_wait_seconds := f.file_system_poll_wait_seconds })) := by
    intro f hf
    unfold main
    rw [hf]
    split_ifs
    · rfl
    · cases main.model_server_config env f <;> rfl
  refine ⟨hpcm, hpcm', hmain flags hpcm, ?_⟩
  rw [hmain flags hpcm, hmain flags' hpcm', hmsc]
  rw [hsame]

/-- Witness of `C10_platform_file_is_used_verbatim`: the platform configuration file
`platform.txt`, once with the default batching flags and once with batching enabled, a
batch size of 7 and 3 inter-op threads. -/
theorem C10_platform_file_is_used_verbatim_witness :
    flagsBatchingFileAndPlatformFile.platform_config_file ≠ "" ∧
    main exampleEnv true
      { flagsBatchingFileAndPlatformFile with
          enable_batching := true, batch_size := 7, inter_op := 3 } =
      .ok { model_server_config :=
              { model_config_list := [⟨"default", "/models/m", "tensorflow"⟩] }
            platform_config_map := .parsed "platform.txt"
            file_system_poll_wait_seconds := 1 } ∧
    (main.platform_config_map exampleEnv flagsBatchingFileAndPlatformFile
      = .ok (.parsed "platform.txt") ∧
    main.platform_config_map exampleEnv
      { flagsBatchingFileAndPlatformFile with
          enable_batching := true, batch_size := 7, inter_op := 3 }
      = .ok (.parsed "platform.txt") ∧
    main exampleEnv true flagsBatchingFileAndPlatformFile =
      (if true = false ∨
          (flagsBatchingFileAndPlatformFile.model_base_path = "" ∧
            flagsBatchingFileAndPlatformFile.model_config_file = "") then
        .error (.returned (-1))
      else
        (main.model_server_config exampleEnv flagsBatchingFileAndPlatformFile).map
          (fun model_server_config =>
            { model_server_config := model_server_config
              platform_config_map := .parsed "platform.txt"
              file_system_poll_wait_seconds :=
                flagsBatchingFileAndPlatformFile.file_system_poll_wait_seconds })) ∧
    main exampleEnv true
      { flagsBatchingFileAndPlatformFile with
          enable_batching := true, batch_size := 7, inter_op := 3 }
      = main exampleEnv true flagsBatchingFileAndPlatformFile) :=
  ⟨by decide, rfl,
   C10_platform_file_is_used_verbatim exampleEnv true flagsBatchingFileAndPlatformFile
     { flagsBatchingFileAndPlatformFile with
         enable_batching := true, batch_size := 7, inter_op := 3 }
     (.parsed "platform.txt") (by decide) rfl rfl⟩

/-! ## The metadata call -/

/-- The pre-call step does not touch the flag `use_saved_model_`. -/
theorem pace_use_saved_model {D : Type} [Add D] (svc svc' : PredictionServiceImpl D)
    (t : D) (hp : Predict.pace svc = some (svc', t)) :
    svc'.use_saved_model_ = svc.use_saved_model_ := by
  unfold Predict.pace at hp
  split at hp
  · exact Option.noConfusion hp
  · injection hp with h
    injection h with h₁ _
    rw [← h₁]

/-- A `Predict` call does not touch the flag `use_saved_model_`. -/
theorem Predict_use_saved_model {D : Type} [Add D] (svc svc' : PredictionServiceImpl D)
    (world : World D) (call : PredictCall)
    (h : (Predict svc world call).svc = some svc') :
    svc'.use_saved_model_ = svc.use_saved_model_ := by
  unfold Predict at h
  cases hp : Predict.pace svc with
  | none =>
    rw [hp] at h
    exact Option.noConfusion h
  | some r =>
    obtain ⟨svc₁, t⟩ := r
    have h₁ := pace_use_saved_model svc svc₁ t hp
    rw [hp] at h
    simp only at h
    split_ifs at h <;>
      simp only [PredictResult.svc, Option.some.injEq] at h <;>
      rw [← h, ← h₁]

/-- A run of `Predict` calls that leaves the process serving leaves the flag
`use_saved_model_` as it was. -/
theorem serveAll_use_saved_model {D : Type} [Add D] (calls : List PredictCall) :
    ∀ (svc svc' : PredictionServiceImpl D) (world world' : World D),
      Process.serveAll (.running svc world) calls = .running svc' world' →
      svc'.use_saved_model_ = svc.use_saved_model_ := by
  induction calls with
  | nil =>
    intro svc svc' world world' h
    have h' : Process.running svc world = Process.running svc' world' := h
    injection h' with h₁ _
    rw [h₁]
  | cons call calls ih =>
    intro svc svc' world world' h
    rw [serveAll_cons] at h
    cases hP : Predict svc world call with
    | returned svc₁ world₁ status =>
      simp only [Process.serve, hP, PredictResult.process] at h
      have h₁ := Predict_use_saved_model svc svc₁ world call (by rw [hP]; rfl)
      rw [ih svc₁ svc' world₁ world' h, h₁]
    | exited code svc₁ world₁ =>
      simp only [Process.serve, hP, PredictResult.process] at h
      rw [serveAll_exited] at h
      exact Process.noConfusion h
    | undefined =>
      simp only [Process.serve, hP, PredictResult.process] at h
      rw [serveAll_undefined] at h
      exact Process.noConfusion h

/-- Claim C11: for every `GetModelMetadata` call on a service constructed with
`use_saved_model = false`, after any run of `Predict` calls that leaves the process
serving, the result is a status with the invalid-argument code and no request is
passed to the metadata operation of the engine; on a service constructed with
`use_saved_model = true` the result is exactly `ToGRPCStatus` applied to the outcome
of the engine for that request, which is the one request passed to the engine. -/
theorem C11_GetModelMetadata_needs_saved_model {D Req : Type} [Add D] [Zero D]
    (B : Int) (s : List D) (usm : Bool) (world : World D) (calls : List PredictCall)
    (svc : PredictionServiceImpl D) (w : World D)
    (hrun : Process.serveAll (.running (PredictionServiceImpl.new B s usm) world) calls
      = .running svc w)
    (GetModelMetadataImpl : Req → tensorflow.Status) (request : Req) :
    (usm = false →
      (GetModelMetadata svc GetModelMetadataImpl request).status.code
        = grpc.StatusCode.INVALID_ARGUMENT ∧
      (GetModelMetadata svc GetModelMetadataImpl request).status.ok = false ∧
      (GetModelMetadata svc GetModelMetadataImpl request).engine_requests = []) ∧
    (usm = true →
      (GetModelMetadata svc GetModelMetadataImpl request).status
        = ToGRPCStatus (GetModelMetadataImpl request) ∧
      (GetModelMetadata svc GetModelMetadataImpl request).engine_requests = [request]) := by
  have hflag : svc.use_saved_model_ = usm :=
    serveAll_use_saved_model calls _ svc world w hrun
  constructor
  · intro hu
    rw [hu] at hflag
    unfold GetModelMetadata
    rw [hflag]
    exact ⟨rfl, rfl, rfl⟩
  · intro hu
    rw [hu] at hflag
    unfold GetModelMetadata
    rw [hflag]
    exact ⟨rfl, rfl⟩

/-- Witness of `C11_GetModelMetadata_needs_saved_model`: a service constructed with
`use_saved_model = false` that has served one `Predict` call answers a metadata
request with code 3 and the message of the source, and passes nothing to the engine,
whose own answer would have been OK. -/
theorem C11_GetModelMetadata_needs_saved_model_witness :
    Process.serveAll
        (.running (PredictionServiceImpl.new 2 [(0 : Int), 0, 0] false) World.initial)
        [⟨tensorflow.Status.OK, 100, 130, false, false, false⟩]
      = .running ⟨1, 1, 2, 0, [0, 0, 0], false⟩ ⟨[0], [], [], []⟩ ∧
    GetModelMetadata (⟨1, 1, 2, 0, [0, 0, 0], false⟩ : PredictionServiceImpl Int)
        (fun _ : Nat => tensorflow.Status.OK) 7
      = { status :=
            { code := 3
              error_message :=
                ("GetModelMetadata API is only available when use_saved_model is " ++
                  "set to true").toList }
          engine_requests := [] } ∧
    ((false = false →
      (GetModelMetadata (⟨1, 1, 2, 0, [0, 0, 0], false⟩ : PredictionServiceImpl Int)
          (fun _ : Nat => tensorflow.Status.OK) 7).status.code
        = grpc.StatusCode.INVALID_ARGUMENT ∧
      (GetModelMetadata (⟨1, 1, 2, 0, [0, 0, 0], false⟩ : PredictionServiceImpl Int)
          (fun _ : Nat => tensorflow.Status.OK) 7).status.ok = false ∧
      (GetModelMetadata (⟨1, 1, 2, 0, [0, 0, 0], false⟩ : PredictionServiceImpl Int)
          (fun _ : Nat => tensorflow.Status.OK) 7).engine_requests = []) ∧
    (false = true →
      (GetModelMetadata (⟨1, 1, 2, 0, [0, 0, 0], false⟩ : PredictionServiceImpl Int)
          (fun _ : Nat => tensorflow.Status.OK) 7).status
        = ToGRPCStatus ((fun _ : Nat => tensorflow.Status.OK) 7) ∧
      (GetModelMetadata (⟨1, 1, 2, 0, [0, 0, 0], false⟩ : PredictionServiceImpl Int)
          (fun _ : Nat => tensorflow.Status.OK) 7).engine_requests = [7])) :=
  ⟨by decide, by decide,
   C11_GetModelMetadata_needs_saved_model 2 [(0 : Int), 0, 0] false World.initial
     [⟨tensorflow.Status.OK, 100, 130, false, false, false⟩] ⟨1, 1, 2, 0, [0, 0, 0], false⟩ ⟨[0], [], [], []⟩
     (by decide) (fun _ : Nat => tensorflow.Status.OK) 7⟩

/-! ## A call that the engine fails -/

/-- Claim C12: for every pacing state whose cursor lies inside the schedule and every
`Predict` call whose engine outcome is a failure, the call returns the translated
status of that failure to the caller and does not end the process; it leaves
`qy_request_count` unchanged and appends nothing to the latency log `main.txt`, the
start log `main_start.txt` and the end log `main_end.txt`; of the object only the
cursor and the accumulated waiting time change. -/
theorem C12_failed_call_changes_only_pacing {D : Type} [Add D]
    (svc : PredictionServiceImpl D) (world : World D) (call : PredictCall) (d : D)
    (hd : vectorAt svc.interarrival_time_generated svc.qy_income_request_count = some d)
    (hfail : call.engine.ok = false) :
    ∃ svc' world', Predict svc world call = .returned svc' world' (ToGRPCStatus call.engine) ∧
      (ToGRPCStatus call.engine).ok = false ∧
      svc'.qy_request_count = svc.qy_request_count ∧
      svc' = { svc with qy_income_request_count := svc'.qy_income_request_count
                        total_waiting_time := svc.total_waiting_time + d } ∧
      world'.main_txt = world.main_txt ∧
      world'.main_start_txt = world.main_start_txt ∧
      world'.main_end_txt = world.main_end_txt := by
  obtain ⟨svc₁, hp, htot, hc, ht, hs, hu⟩ := pace_of_vectorAt svc d hd
  have hfail' : (ToGRPCStatus call.engine).ok = false := hfail
  refine ⟨svc₁, { world with slept := world.slept ++ [svc.total_waiting_time + d] },
    ?_, hfail', hc, ?_, rfl, rfl, rfl⟩
  · unfold Predict
    rw [hp]
    simp only [hfail', Bool.not_false, if_true]
  · cases svc₁
    cases svc
    simp only at htot hc ht hs hu
    simp only [htot, hc, ht, hs, hu]

/-- Witness of `C12_failed_call_changes_only_pacing`: on the schedule `[3, 4]`, with
one call served before, a call that the engine fails with code 13 returns that code,
moves the cursor from 1 to 0 and the accumulated wait from 3 to 7, and leaves the
counter at 1 and the three logs as they were. -/
theorem C12_failed_call_changes_only_pacing_witness :
    vectorAt [(3 : Int), 4] 1 = some 4 ∧
    (⟨⟨13, "boom".toList⟩, 10, 15, false, false, false⟩ : PredictCall).engine.ok = false ∧
    Predict (⟨1, 1, 2, 3, [3, 4], true⟩ : PredictionServiceImpl Int)
        ⟨[3], [], [], []⟩ ⟨⟨13, "boom".toList⟩, 10, 15, false, false, false⟩
      = .returned ⟨1, 0, 2, 7, [3, 4], true⟩ ⟨[3, 7], [], [], []⟩ ⟨13, "boom".toList⟩ ∧
    (∃ svc' world',
      Predict (⟨1, 1, 2, 3, [3, 4], true⟩ : PredictionServiceImpl Int)
          ⟨[3], [], [], []⟩ ⟨⟨13, "boom".toList⟩, 10, 15, false, false, false⟩
        = .returned svc' world' (ToGRPCStatus ⟨13, "boom".toList⟩) ∧
      (ToGRPCStatus ⟨13, "boom".toList⟩).ok = false ∧
      svc'.qy_request_count = 1 ∧
      svc' = { (⟨1, 1, 2, 3, [3, 4], true⟩ : PredictionServiceImpl Int) with
                 qy_income_request_count := svc'.qy_income_request_count
                 total_waiting_time := 3 + 4 } ∧
      world'.main_txt = [] ∧ world'.main_start_txt = [] ∧ world'.main_end_txt = []) :=
  ⟨by decide, by decide, by decide,
   C12_failed_call_changes_only_pacing (⟨1, 1, 2, 3, [3, 4], true⟩ : PredictionServiceImpl Int)
     ⟨[3], [], [], []⟩ ⟨⟨13, "boom".toList⟩, 10, 15, false, false, false⟩ 4 (by decide) (by decide)⟩

/-! ## The logs of a run in which every call is served -/

/-- The calls 2 to `B + 1` of a run of at least `B + 1` calls are `B` calls: the calls
2 to `B`, followed by call `B + 1` unless `B = 0`. -/
theorem loggedCalls_eq (B : Nat) (calls : List PredictCall) (hlen : B + 1 ≤ calls.length) :
    (loggedCalls B calls).length = B ∧
    loggedCalls B calls =
      (calls.take B).drop 1 ++ (if B = 0 then [] else [calls.get ⟨B, hlen⟩]) := by
  constructor
  · unfold loggedCalls
    rw [List.length_drop, List.length_take]
    omega
  · have htake : calls.take (B + 1) = calls.take B ++ [calls.get ⟨B, hlen⟩] := by
      rw [List.take_succ, List.getElem?_eq_getElem hlen]
      rfl
    unfold loggedCalls
    rw [htake]
    by_cases h0 : B = 0
    · subst h0
      simp
    · have h1 : 1 ≤ (calls.take B).length := by
        rw [List.length_take]
        omega
      rw [List.drop_append_of_le_length h1, if_neg h0]

/-- A run of calls that are all served, stay within the budget and find the three log
files openable: the process keeps serving, and every call is logged except a first one
made with the counter at 0. -/
theorem serveAll_served_logs {D : Type} [Add D] (calls : List PredictCall) :
    ∀ (svc : PredictionServiceImpl D) (world : World D), svc.cursorInSchedule →
      (∀ call ∈ calls, call.engine.ok = true) →
      (∀ call ∈ (if svc.qy_request_count > 0 then calls else calls.drop 1),
        call.main_txt_fail = false ∧ call.main_start_txt_fail = false ∧
        call.main_end_txt_fail = false) →
      0 ≤ svc.qy_request_count → svc.qy_total_request_count ≤ 2147483647 →
      svc.qy_request_count + (calls.length : Int) ≤ svc.qy_total_request_count →
      ∃ svc' world', Process.serveAll (.running svc world) calls = .running svc' world' ∧
        svc'.cursorInSchedule ∧
        svc'.qy_request_count = svc.qy_request_count + (calls.length : Int) ∧
        svc'.qy_total_request_count = svc.qy_total_request_count ∧
        world'.main_txt = world.main_txt ++
          (if svc.qy_request_count > 0 then calls else calls.drop 1).map
            (fun call => call.end_time - call.start_time) ∧
        world'.main_start_txt = world.main_start_txt ++
          (if svc.qy_request_count > 0 then calls else calls.drop 1).map
            (fun call => call.start_time) ∧
        world'.main_end_txt = world.main_end_txt ++
          (if svc.qy_request_count > 0 then calls else calls.drop 1).map
            (fun call => call.end_time) := by
  induction calls with
  | nil =>
    intro svc world hv _ _ _ _ _
    refine ⟨svc, world, rfl, hv, by simp, rfl, ?_, ?_, ?_⟩ <;> split_ifs <;> simp
  | cons call calls ih =>
    intro svc world hv hok hopen h0 hmax hle
    have hcall : call.engine.ok = true := hok call (List.mem_cons_self _ _)
    have hrest : ∀ c ∈ calls, c.engine.ok = true :=
      fun c hc => hok c (List.mem_cons_of_mem _ hc)
    have hopen' : ∀ c ∈ calls, c.main_txt_fail = false ∧ c.main_start_txt_fail = false ∧
        c.main_end_txt_fail = false := by
      intro c hc
      apply hopen c
      split_ifs
      · exact List.mem_cons_of_mem _ hc
      · exact hc
    have hhead : svc.qy_request_count > 0 → call.main_txt_fail = false ∧
        call.main_start_txt_fail = false ∧ call.main_end_txt_fail = false := by
      intro hpos
      apply hopen call
      rw [if_pos hpos]
      exact List.mem_cons_self _ _
    have hlen : ((call :: calls).length : Int) = (calls.length : Int) + 1 := by
      simp
    rw [hlen] at hle
    obtain ⟨svc₁, world₁, hv₁, hc₁, ht₁, -, hl, hls, hle', hP⟩ :=
      Predict_served svc world call hv hcall
    have hwrap : wrapInt32 (svc.qy_request_count + 1) = svc.qy_request_count + 1 :=
      wrapInt32_of_range _ (by omega) (by omega)
    rw [hwrap] at hc₁ hP
    rw [if_neg (by omega)] at hP
    have hpos : svc₁.qy_request_count > 0 := by omega
    obtain ⟨svc₂, world₂, hrun, hv₂, hc₂, ht₂, hl₂, hls₂, hle₂⟩ :=
      ih svc₁ world₁ hv₁ hrest (by rw [if_pos hpos]; exact hopen') (by omega)
        (by rw [ht₁]; exact hmax) (by rw [hc₁, ht₁]; omega)
    rw [if_pos hpos] at hl₂ hls₂ hle₂
    refine ⟨svc₂, world₂, ?_, hv₂, by rw [hc₂, hc₁, hlen]; ring, ht₂.trans ht₁, ?_, ?_, ?_⟩
    · rw [serveAll_cons]
      simp only [Process.serve, hP, PredictResult.process]
      exact hrun
    · rw [hl₂, hl]
      unfold latencyLines
      by_cases hp : svc.qy_request_count > 0
      · simp [hp, (hhead hp).1]
      · simp [hp]
    · rw [hls₂, hls]
      by_cases hp : svc.qy_request_count > 0
      · simp [hp, (hhead hp).2.1]
      · simp [hp]
    · rw [hle₂, hle']
      by_cases hp : svc.qy_request_count > 0
      · simp [hp, (hhead hp).2.2]
      · simp [hp]

/-- Claim C13, refuted as stated, three times.  With budget 0 the first call, served
successfully, ends the process, and it is the warm-up call that is not logged: at the
exit the three logs are empty, the terminating call is in none of them.  With budget 1
and a second call that finds none of the log files openable, the process ends at that
call with the three logs empty, not with one entry each.  And with the budget
`2147483647`, the largest an `int` holds, the process has not ended after
`2147483647 + 1` served calls. -/
theorem C13_counterexample_logs_at_exit :
    (Predict (PredictionServiceImpl.new 0 [(0 : Int)] true) World.initial servedCall
        = .exited 0 ⟨1, 0, 0, 0, [0], true⟩ ⟨[0], [], [], []⟩ ∧
      Process.serveAll (Process.start 0 [(0 : Int)]) [servedCall]
        = .exited 0 ⟨1, 0, 0, 0, [0], true⟩ ⟨[0], [], [], []⟩) ∧
    (Process.serveAll (Process.start 1 [(0 : Int)])
        [servedCall, ⟨tensorflow.Status.OK, 200, 260, true, true, true⟩]
      = .exited 0 ⟨2, 0, 1, 0, [0], true⟩ ⟨[0, 0], [], [], []⟩) ∧
    (manyServedCalls.length = 2147483647 + 1 ∧
      ∃ svc w, Process.serveAll (Process.start 2147483647 [(0 : Int)]) manyServedCalls
        = .running svc w) := by
  refine ⟨⟨by decide, by decide⟩, by decide, List.length_replicate _ _, ?_⟩
  obtain ⟨svc, w, hrun, -⟩ := serveAll_manyServedCalls
  exact ⟨svc, w, hrun⟩

/-- Claim C13, amended: for every budget `B` with `0 ≤ B < 2147483647` (below the
largest `int`), in a sequential run from the initial state (a schedule that is not
empty) of at least `B + 1` calls that all succeed, in which the calls 2 to `B + 1`
find the three log files openable, the process ends with exit code 0, and at that moment the latency log, the
start log and the end log each hold, after what they held before the run, exactly `B`
entries, one for each of the calls 2 to `B + 1` in order; the terminating call `B + 1`
is the last of them when `B ≥ 1`, and is not logged when `B = 0`. -/
theorem C13_logs_hold_budget_many_entries_at_exit {D : Type} [Add D] [Zero D] (B : Nat)
    (hB : (B : Int) < 2147483647)
    (s : List D) (hs : s ≠ []) (usm : Bool) (world : World D) (calls : List PredictCall)
    (hok : ∀ call ∈ calls, call.engine.ok = true)
    (hopen : ∀ call ∈ loggedCalls B calls, call.main_txt_fail = false ∧
      call.main_start_txt_fail = false ∧ call.main_end_txt_fail = false)
    (hlen : B + 1 ≤ calls.length) :
    ∃ svc w,
      Process.serveAll (.running (PredictionServiceImpl.new (B : Int) s usm) world) calls
        = .exited 0 svc w ∧
      w.main_txt = world.main_txt ++
        (loggedCalls B calls).map (fun call => call.end_time - call.start_time) ∧
      w.main_start_txt = world.main_start_txt ++
        (loggedCalls B calls).map (fun call => call.start_time) ∧
      w.main_end_txt = world.main_end_txt ++
        (loggedCalls B calls).map (fun call => call.end_time) ∧
      (loggedCalls B calls).length = B ∧
      loggedCalls B calls =
        (calls.take B).drop 1 ++ (if B = 0 then [] else [calls.get ⟨B, hlen⟩]) := by
  obtain ⟨hcount, hlogged⟩ := loggedCalls_eq B calls hlen
  have hsplit : calls = calls.take B ++ (calls.get ⟨B, hlen⟩ :: calls.drop (B + 1)) := by
    have h := List.drop_eq_getElem_cons (l := calls) (n := B) hlen
    rw [List.get_eq_getElem, ← h, List.take_append_drop]
  have hokB : (calls.get ⟨B, hlen⟩).engine.ok = true := hok _ (List.get_mem _ _ _)
  have hopenB : B ≠ 0 → calls[B].main_txt_fail = false ∧
      calls[B].main_start_txt_fail = false ∧ calls[B].main_end_txt_fail = false := by
    intro h0
    apply hopen
    rw [hlogged, if_neg h0]
    exact List.mem_append_right _ (List.mem_singleton_self _)
  have htakeLen : ((calls.take B).length : Int) = (B : Int) := by
    rw [List.length_take]
    have : min B calls.length = B := by omega
    rw [this]
  have hcnt : (PredictionServiceImpl.new (B : Int) s usm).qy_request_count = 0 := rfl
  have htot : (PredictionServiceImpl.new (B : Int) s usm).qy_total_request_count
      = (B : Int) := new_total_of_range _ s usm (by omega) (by omega)
  obtain ⟨svc₀, w₀, hrun, hv₀, hc₀, ht₀, hl₀, hls₀, hle₀⟩ :=
    serveAll_served_logs (calls.take B) (PredictionServiceImpl.new (B : Int) s usm) world
      (new_cursorInSchedule _ s hs usm)
      (fun c hc => hok c (List.mem_of_mem_take hc))
      (by
        intro c hc
        rw [hcnt, if_neg (by omega)] at hc
        apply hopen
        rw [hlogged]
        exact List.mem_append_left _ hc)
      (by rw [hcnt]) (by rw [htot]; omega)
      (by rw [htakeLen, hcnt, htot]; omega)
  have hc₀' : svc₀.qy_request_count = (B : Int) := by
    rw [hc₀, htakeLen, hcnt]; omega
  have ht₀' : svc₀.qy_total_request_count = (B : Int) := ht₀.trans htot
  have hzero : ¬ ((PredictionServiceImpl.new (B : Int) s usm).qy_request_count > 0) := by
    rw [hcnt]; omega
  rw [if_neg hzero] at hl₀ hls₀ hle₀
  obtain ⟨svc₁, w₁, -, -, -, -, hl₁, hls₁, hle₁, hP⟩ :=
    Predict_served svc₀ w₀ (calls.get ⟨B, hlen⟩) hv₀ hokB
  rw [wrapInt32_of_range _ (by omega) (by omega), if_pos (by omega)] at hP
  refine ⟨svc₁, w₁, ?_, ?_, ?_, ?_, hcount, hlogged⟩
  · rw [hsplit, serveAll_append, hrun, serveAll_cons]
    simp only [Process.serve, hP, PredictResult.process]
    exact serveAll_exited _ _ _ _
  · rw [hl₁, hl₀, hlogged, hc₀']
    unfold latencyLines
    by_cases h0 : B = 0
    · have : ¬ ((B : Int) > 0) := by omega
      simp [h0]
    · have : (B : Int) > 0 := by omega
      simp [h0, this, (hopenB h0).1]
  · rw [hls₁, hls₀, hlogged, hc₀']
    by_cases h0 : B = 0
    · have : ¬ ((B : Int) > 0) := by omega
      simp [h0]
    · have : (B : Int) > 0 := by omega
      simp [h0, this, (hopenB h0).2.1]
  · rw [hle₁, hle₀, hlogged, hc₀']
    by_cases h0 : B = 0
    · have : ¬ ((B : Int) > 0) := by omega
      simp [h0]
    · have : (B : Int) > 0 := by omega
      simp [h0, this, (hopenB h0).2.2]

/-- Witness of `C13_logs_hold_budget_many_entries_at_exit`: budget 2, schedule
`[0, 0, 0]` and three served calls; the process ends at the third call, and each log
holds the two entries of the second and the third call. -/
theorem C13_logs_hold_budget_many_entries_at_exit_witness :
    (((2 : Nat) : Int) < 2147483647) ∧
    ([(0 : Int), 0, 0] ≠ []) ∧
    (∀ call ∈ threeServedCalls, call.engine.ok = true) ∧
    (∀ call ∈ loggedCalls 2 threeServedCalls, call.main_txt_fail = false ∧
      call.main_start_txt_fail = false ∧ call.main_end_txt_fail = false) ∧
    2 + 1 ≤ threeServedCalls.length ∧
    loggedCalls 2 threeServedCalls
      = [⟨tensorflow.Status.OK, 200, 260, false, false, false⟩,
         ⟨tensorflow.Status.OK, 300, 390, false, false, false⟩] ∧
    (∃ svc w,
      Process.serveAll
          (.running (PredictionServiceImpl.new ((2 : Nat) : Int) [(0 : Int), 0, 0] true)
            World.initial) threeServedCalls
        = .exited 0 svc w ∧
      w.main_txt = (World.initial : World Int).main_txt ++
        (loggedCalls 2 threeServedCalls).map (fun call => call.end_time - call.start_time) ∧
      w.main_start_txt = (World.initial : World Int).main_start_txt ++
        (loggedCalls 2 threeServedCalls).map (fun call => call.start_time) ∧
      w.main_end_txt = (World.initial : World Int).main_end_txt ++
        (loggedCalls 2 threeServedCalls).map (fun call => call.end_time) ∧
      (loggedCalls 2 threeServedCalls).length = 2 ∧
      loggedCalls 2 threeServedCalls =
        (threeServedCalls.take 2).drop 1 ++
          (if 2 = 0 then [] else [threeServedCalls.get ⟨2, by decide⟩])) :=
  ⟨by decide, by decide, by decide, by decide, by decide, by decide,
   C13_logs_hold_budget_many_entries_at_exit 2 (by decide) [(0 : Int), 0, 0] (by decide)
     true World.initial threeServedCalls (by decide) (by decide) (by decide)⟩

end ModelServer
